import Mathlib

/-!
# Verification of the cloudinary-signer service

Shallow embedding of the signing proxy found in `src/index.js` (three
concatenated variants) and `src/unnamed/part_000` (a fourth variant with
delete and role-write endpoints), together with proofs of the specified
properties.

Machine words are modelled as `Nat` reduced modulo `2 ^ 32` where the
JavaScript `crypto` SHA-1 operates on 32-bit words.
-/

set_option maxRecDepth 100000

namespace CloudinarySigner

/-! ## SHA-1 (the digest used by `crypto.createHash("sha1")`) -/

/-- Truncate to a 32-bit word. -/
def w32 (n : Nat) : Nat := n % 4294967296

/-- Rotate a 32-bit word left by `k` bits (`0 < k < 32`, argument below `2 ^ 32`). -/
def rotl (k n : Nat) : Nat := w32 (n <<< k) ||| (n >>> (32 - k))

/-- UTF-8 encoding of one character, as in Node's `hash.update(string)`
(default utf8 input encoding). -/
def utf8Char (c : Char) : List Nat :=
  let n := c.toNat
  if n < 128 then [n]
  else if n < 2048 then [192 ||| (n >>> 6), 128 ||| (n &&& 63)]
  else if n < 65536 then
    [224 ||| (n >>> 12), 128 ||| ((n >>> 6) &&& 63), 128 ||| (n &&& 63)]
  else
    [240 ||| (n >>> 18), 128 ||| ((n >>> 12) &&& 63),
     128 ||| ((n >>> 6) &&& 63), 128 ||| (n &&& 63)]

/-- UTF-8 bytes of a string. -/
def utf8Bytes (s : String) : List Nat := (s.data.map utf8Char).flatten

/-- The 8-byte big-endian encoding of the 64-bit message bit length. -/
def sha1LenBytes (n : Nat) : List Nat :=
  [(n >>> 56) &&& 255, (n >>> 48) &&& 255, (n >>> 40) &&& 255, (n >>> 32) &&& 255,
   (n >>> 24) &&& 255, (n >>> 16) &&& 255, (n >>> 8) &&& 255, n &&& 255]

/-- SHA-1 padding: append `0x80`, zero bytes up to 56 mod 64, then the
bit length, big-endian. -/
def sha1Pad (msg : List Nat) : List Nat :=
  let len := msg.length
  msg ++ 128 :: List.replicate ((119 - len % 64) % 64) 0 ++ sha1LenBytes (8 * len)

/-- Group bytes into big-endian 32-bit words. -/
def beWords : List Nat → List Nat
  | a :: b :: c :: d :: rest => (((a * 256 + b) * 256 + c) * 256 + d) :: beWords rest
  | _ => []

/-- Message-schedule extension; `acc` holds the words produced so far, most
recent first, so `acc.getD 2 0` is `w[i-3]`, `acc.getD 15 0` is `w[i-16]`. -/
def extendW : Nat → List Nat → List Nat
  | 0, acc => acc
  | n + 1, acc =>
      extendW n
        (rotl 1 (((acc.getD 2 0 ^^^ acc.getD 7 0) ^^^ acc.getD 13 0) ^^^ acc.getD 15 0) :: acc)

/-- The SHA-1 round function for round `i`. -/
def sha1F (i b c d : Nat) : Nat :=
  if i < 20 then (b &&& c) ||| ((b ^^^ 4294967295) &&& d)
  else if i < 40 then (b ^^^ c) ^^^ d
  else if i < 60 then ((b &&& c) ||| (b &&& d)) ||| (c &&& d)
  else (b ^^^ c) ^^^ d

/-- The SHA-1 round constant for round `i`. -/
def sha1K (i : Nat) : Nat :=
  if i < 20 then 1518500249
  else if i < 40 then 1859775393
  else if i < 60 then 2400959708
  else 3395469782

/-- The 80 SHA-1 rounds over the message schedule `ws`, starting at round `i`. -/
def sha1Rounds : Nat → List Nat → Nat × Nat × Nat × Nat × Nat → Nat × Nat × Nat × Nat × Nat
  | _, [], st => st
  | i, w :: ws, (a, b, c, d, e) =>
      let temp := w32 (w32 (rotl 5 a) + sha1F i b c d + e + sha1K i + w)
      sha1Rounds (i + 1) ws (temp, a, rotl 30 b, c, d)

/-- The running SHA-1 hash state `h0 .. h4`. -/
structure Sha1St where
  h0 : Nat
  h1 : Nat
  h2 : Nat
  h3 : Nat
  h4 : Nat
  deriving DecidableEq

/-- Compress one 64-byte block into the hash state. -/
def sha1Compress (st : Sha1St) (block : List Nat) : Sha1St :=
  let ws := (extendW 64 (beWords block).reverse).reverse
  match sha1Rounds 0 ws (st.h0, st.h1, st.h2, st.h3, st.h4) with
  | (a, b, c, d, e) =>
      ⟨w32 (st.h0 + a), w32 (st.h1 + b), w32 (st.h2 + c), w32 (st.h3 + d), w32 (st.h4 + e)⟩

/-- Fold the compression function over `n` successive 64-byte blocks. -/
def sha1Blocks : Nat → List Nat → Sha1St → Sha1St
  | 0, _, st => st
  | n + 1, bytes, st => sha1Blocks n (bytes.drop 64) (sha1Compress st (bytes.take 64))

/-- SHA-1 of a byte list: pad, then compress every block starting from the
standard initialisation vector. -/
def sha1Bytes (msg : List Nat) : Sha1St :=
  let padded := sha1Pad msg
  sha1Blocks (padded.length / 64) padded
    ⟨1732584193, 4023233417, 2562383102, 271733878, 3285377520⟩

/-- Lowercase hex digit for a nibble. -/
def hexDigit (n : Nat) : Char :=
  if n < 10 then Char.ofNat (48 + n) else Char.ofNat (87 + n)

/-- Lowercase 8-digit hex rendering of a 32-bit word. -/
def hex8 (n : Nat) : String :=
  String.mk ([7, 6, 5, 4, 3, 2, 1, 0].map fun i => hexDigit ((n >>> (4 * i)) &&& 15))

/-- `crypto.createHash("sha1").update(s).digest("hex")`: the lowercase-hex
SHA-1 digest of the UTF-8 bytes of `s`. -/
def sha1Hex (s : String) : String :=
  let st := sha1Bytes (utf8Bytes s)
  hex8 st.h0 ++ hex8 st.h1 ++ hex8 st.h2 ++ hex8 st.h3 ++ hex8 st.h4

/-! ## The Signer

From `src/index.js` lines 157-165 (identical in all sign-endpoint variants):

```js
const stringToSign = Object.keys(params)
  .sort()
  .map((k) => `${k}=${params[k]}`)
  .join("&");
const signature = crypto.createHash("sha1").update(stringToSign + API_SECRET).digest("hex");
```

A JavaScript object is modelled as an association list in insertion order;
`Object.keys(..).sort()` is the ascending lexicographic sort of the keys and
`params[k]` is the (first) lookup of `k`. -/

/-- Code-unit comparison of character lists: the default `Array.prototype.sort()`
comparator compares strings by successive code units. -/
def charListLe : List Char → List Char → Bool
  | [], _ => true
  | _ :: _, [] => false
  | a :: as, b :: bs =>
      if a.toNat < b.toNat then true
      else if b.toNat < a.toNat then false
      else charListLe as bs

/-- String comparison used by `Object.keys(params).sort()`. -/
def jsLe (a b : String) : Bool := charListLe a.data b.data

/-- `Array.prototype.sort()` on string keys: ascending lexicographic order. -/
def sortKeys (l : List String) : List String :=
  List.insertionSort (fun a b => jsLe a b = true) l

/-- The canonical string-to-sign: sorted keys rendered `key=value`, joined
with `&`. -/
def stringToSign (params : List (String × String)) : String :=
  String.intercalate "&"
    ((sortKeys (params.map Prod.fst)).map fun k => k ++ "=" ++ ((params.lookup k).getD ""))

/-- The Signer: SHA-1 hex digest of the string-to-sign with the secret
appended directly (no separator). -/
def sign (params : List (String × String)) (secret : String) : String :=
  sha1Hex (stringToSign params ++ secret)

/-! ## JSON responses

Response bodies are modelled as ordered key-value lists so that statements
about exactly which keys a response carries are meaningful. `JVal.raw`
stands for an opaque JSON value received verbatim from the remote media
API. -/

/-- A JSON value as it appears in a response body. -/
inductive JVal where
  | s (v : String)
  | n (v : Nat)
  | b (v : Bool)
  | null
  | raw (tag : Nat)
  deriving DecidableEq

/-- An HTTP response: status code plus JSON object body. -/
structure Resp where
  status : Nat
  body : List (String × JVal)
  deriving DecidableEq

/-- The keys of a response body, in order. -/
def Resp.keys (r : Resp) : List String := r.body.map Prod.fst

/-- JavaScript truthiness test for an optional string field of a JSON body:
`none` models `undefined`, and the empty string is also falsy. -/
def jsFalsy : Option String → Bool
  | none => true
  | some s => s == ""

/-! ## The sign endpoint

The request body of `POST /sign`. The handlers destructure only `folder`
and `public_id` from `req.body`; the `timestamp` field models any
caller-supplied timestamp that may be present in the JSON body (it is
never read by the code). -/

structure SignBody where
  folder : Option String
  public_id : Option String
  timestamp : Option Nat
  deriving DecidableEq

/-- `src/index.js` lines 154-155: `const params = { folder, timestamp };
if (public_id) params.public_id = public_id;` (identical in all variants). -/
def signParams (folder : String) (timestamp : Nat) (public_id : Option String) :
    List (String × String) :=
  let params := [("folder", folder), ("timestamp", toString timestamp)]
  if jsFalsy public_id then params else params ++ [("public_id", public_id.getD "")]

/-- The `POST /sign` handler of `src/index.js` lines 145-178 (first variant):
`mustHaveEnv()` (throwing 500 on missing Cloudinary env or uninitialised
Firebase Admin), the `folder` check, then params, string-to-sign, signature
and the six-key response. Env strings model `process.env` values with `""`
for an unset variable; `now` is `Math.floor(Date.now() / 1000)`. -/
def signHandler (cloudName apiKey apiSecret : String) (firebaseReady : Bool)
    (now : Nat) (body : SignBody) : Resp :=
  if cloudName = "" ∨ apiKey = "" ∨ apiSecret = "" then
    ⟨500, [("error", .s "Error: Cloudinary env vars not set")]⟩
  else if firebaseReady = false then
    ⟨500, [("error", .s "Error: Firebase Admin not initialized")]⟩
  else if jsFalsy body.folder then ⟨400, [("error", .s "folder required")]⟩
  else
    let folder := body.folder.getD ""
    let params := signParams folder now body.public_id
    ⟨200, [("cloudName", .s cloudName), ("apiKey", .s apiKey), ("timestamp", .n now),
           ("signature", .s (sign params apiSecret)), ("folder", .s folder),
           ("public_id", (body.public_id.map JVal.s).getD JVal.null)]⟩

/-- The `POST /sign` handler of `src/unnamed/part_000` lines 109-145: the
`folder` check comes before the env check, and the response additionally
carries the debug `stringToSign` key. -/
def part000SignHandler (cloudName apiKey apiSecret : String)
    (now : Nat) (body : SignBody) : Resp :=
  if jsFalsy body.folder then ⟨400, [("error", .s "folder required")]⟩
  else if cloudName = "" ∨ apiKey = "" ∨ apiSecret = "" then
    ⟨500, [("error", .s "Cloudinary env vars not set")]⟩
  else
    let folder := body.folder.getD ""
    let params := signParams folder now body.public_id
    ⟨200, [("cloudName", .s cloudName), ("apiKey", .s apiKey), ("timestamp", .n now),
           ("signature", .s (sign params apiSecret)), ("folder", .s folder),
           ("public_id", (body.public_id.map JVal.s).getD JVal.null),
           ("stringToSign", .s (stringToSign params))]⟩

/-! ## The authorization gates (role middleware)

`requireAuth` is modelled by its outcome: `uid : Option String` is the
subject id of a successfully verified bearer credential (`none` when the
decoded token carries no uid). The Firestore `roles/{uid}` document is
`none` when absent, `some none` when it exists without a `role` field, and
`some (some r)` when the field holds the string `r`. -/

abbrev RoleDoc := Option (Option String)

/-- The gate's verdict: continue to the handler (with the resolved role
where the middleware records one) or respond with an error. -/
inductive GateResult where
  | allowed (role : String)
  | denied (status : Nat) (error : String)
  deriving DecidableEq

/-- `src/index.js` line 113: `(roleDoc.exists ? roleDoc.data()?.role : null) || "user"`
— an absent document, absent field or empty string all default to `"user"`. -/
def resolveRole (doc : RoleDoc) : String :=
  match doc with
  | some (some r) => if r = "" then "user" else r
  | _ => "user"

/-- `requireAdmin` middleware of `src/index.js` lines 108-122. -/
def requireAdmin (uid : Option String) (doc : RoleDoc) : GateResult :=
  match uid with
  | none => .denied 401 "No user in request"
  | some _ =>
      if resolveRole doc ≠ "admin" then .denied 403 "Not admin"
      else .allowed (resolveRole doc)

/-- ASCII case folding of `String.prototype.toLowerCase()`. -/
def asciiLower (c : Char) : Char :=
  if 65 ≤ c.toNat ∧ c.toNat ≤ 90 then Char.ofNat (c.toNat + 32) else c

/-- ASCII whitespace trimmed by `String.prototype.trim()`. -/
def isJsSpace (c : Char) : Bool :=
  c.toNat == 32 || (decide (9 ≤ c.toNat) && decide (c.toNat ≤ 13))

/-- `s.toLowerCase().trim()` as applied to a role string. -/
def jsLowerTrim (s : String) : String :=
  String.mk ((((s.data.map asciiLower).dropWhile isJsSpace).reverse.dropWhile isJsSpace).reverse)

/-- `src/unnamed/part_000` line 95:
`(snap.exists ? (snap.data()?.role || "") : "").toString().toLowerCase().trim()`
— an absent document or field resolves to `""`, not `"user"`. -/
def part000ResolveRole (doc : RoleDoc) : String :=
  jsLowerTrim (match doc with
    | some (some r) => r
    | _ => "")

/-- `requireAdminOrModeratorByRolesDoc` middleware of `src/unnamed/part_000`
lines 89-106; on success it records the resolved role on the request. -/
def requireAdminOrModeratorByRolesDoc (uid : Option String) (doc : RoleDoc) : GateResult :=
  match uid with
  | none => .denied 401 "No uid"
  | some _ =>
      let role := part000ResolveRole doc
      if role ≠ "admin" ∧ role ≠ "moderator" then
        .denied 403 "Forbidden: admin/moderator only"
      else .allowed role

/-- The `POST /sign` route of `src/index.js` line 145: `requireAuth` then
`requireAdmin` then the handler; a denied gate short-circuits. -/
def indexSignRoute (cloudName apiKey apiSecret : String) (firebaseReady : Bool)
    (uid : Option String) (doc : RoleDoc) (now : Nat) (body : SignBody) : Resp :=
  match requireAdmin uid doc with
  | .denied s e => ⟨s, [("error", .s e)]⟩
  | .allowed _ => signHandler cloudName apiKey apiSecret firebaseReady now body

/-- The `POST /sign` route of `src/unnamed/part_000` line 109. -/
def part000SignRoute (cloudName apiKey apiSecret : String)
    (uid : Option String) (doc : RoleDoc) (now : Nat) (body : SignBody) : Resp :=
  match requireAdminOrModeratorByRolesDoc uid doc with
  | .denied s e => ⟨s, [("error", .s e)]⟩
  | .allowed _ => part000SignHandler cloudName apiKey apiSecret now body

/-! ## The delete endpoint -/

/-- `src/unnamed/part_000` line 162: the destroy string-to-sign built by a
template literal, `` `public_id=${public_id}&timestamp=${timestamp}` ``. -/
def part000DeleteStringToSign (public_id : String) (timestamp : Nat) : String :=
  "public_id=" ++ public_id ++ "&timestamp=" ++ toString timestamp

/-- The `POST /cloudinary/delete` handler of `src/unnamed/part_000` lines
149-192 (manual form post). The outbound `fetch` of the destroy endpoint is
modelled by its observed outcome: `respOk`/`respStatus` are `resp.ok` and
`resp.status`, and `remote` is `json ?? text`, the remote body verbatim. -/
def part000DeleteHandler (cloudName apiKey apiSecret : String)
    (public_id : Option String) (respOk : Bool) (respStatus : Nat) (remote : JVal) : Resp :=
  if jsFalsy public_id then ⟨400, [("error", .s "public_id required")]⟩
  else if cloudName = "" ∨ apiKey = "" ∨ apiSecret = "" then
    ⟨500, [("error", .s "Cloudinary env vars not set")]⟩
  else if respOk = false then
    ⟨500, [("error", .s "Cloudinary destroy failed"), ("status", .n respStatus),
           ("body", remote)]⟩
  else ⟨200, [("ok", .b true), ("cloudinary", remote)]⟩

/-- The `POST /cloudinary/delete` handler of `src/index.js` lines 182-200
(library variant). `destroy` is the outcome of
`cloudinary.uploader.destroy(public_id, ...)`: `.ok result` when the call
resolves with the remote outcome object `result`, `.error e` when it
rejects (caught and turned into the 500 response, `String(e) = e`). -/
def indexDeleteHandler (cloudName apiKey apiSecret : String) (firebaseReady : Bool)
    (public_id : Option String) (destroy : Except String JVal) : Resp :=
  if cloudName = "" ∨ apiKey = "" ∨ apiSecret = "" then
    ⟨500, [("error", .s "Cloudinary delete failed"),
           ("details", .s "Error: Cloudinary env vars not set")]⟩
  else if firebaseReady = false then
    ⟨500, [("error", .s "Cloudinary delete failed"),
           ("details", .s "Error: Firebase Admin not initialized")]⟩
  else if jsFalsy public_id then ⟨400, [("error", .s "public_id required")]⟩
  else
    match destroy with
    | .ok result => ⟨200, [("ok", .b true), ("public_id", .s (public_id.getD "")),
                           ("result", result)]⟩
    | .error e => ⟨500, [("error", .s "Cloudinary delete failed"), ("details", .s e)]⟩

/-- The `POST /cloudinary/delete` route of `src/unnamed/part_000` line 149. -/
def part000DeleteRoute (cloudName apiKey apiSecret : String)
    (uid : Option String) (doc : RoleDoc)
    (public_id : Option String) (respOk : Bool) (respStatus : Nat) (remote : JVal) : Resp :=
  match requireAdminOrModeratorByRolesDoc uid doc with
  | .denied s e => ⟨s, [("error", .s e)]⟩
  | .allowed _ => part000DeleteHandler cloudName apiKey apiSecret public_id respOk respStatus remote

/-- The `POST /cloudinary/delete` route of `src/index.js` line 182. -/
def indexDeleteRoute (cloudName apiKey apiSecret : String) (firebaseReady : Bool)
    (uid : Option String) (doc : RoleDoc)
    (public_id : Option String) (destroy : Except String JVal) : Resp :=
  match requireAdmin uid doc with
  | .denied s e => ⟨s, [("error", .s e)]⟩
  | .allowed _ => indexDeleteHandler cloudName apiKey apiSecret firebaseReady public_id destroy

/-! ## The role-write endpoint (`src/unnamed/part_000` lines 196-219) -/

/-- Outcome of the `/roles/set` handler: the response together with the
Firestore write it performed, `some (uid, role)` for
`roles/{uid}.set({role, updatedAt}, {merge: true})`, `none` when nothing
was written. -/
structure RolesSetOutcome where
  resp : Resp
  write : Option (String × String)
  deriving DecidableEq

/-- The `POST /roles/set` handler body: `reqRole` is `req.role` as recorded
by the admin-or-moderator gate; the body supplies `uid` and `role`. -/
def rolesSetHandler (reqRole : String) (uid : Option String) (role : Option String) :
    RolesSetOutcome :=
  if reqRole ≠ "admin" then ⟨⟨403, [("error", .s "Admins only")]⟩, none⟩
  else if jsFalsy uid then ⟨⟨400, [("error", .s "uid required")]⟩, none⟩
  else
    match role with
    | some r =>
        if r = "admin" ∨ r = "moderator" ∨ r = "user" then
          ⟨⟨200, [("ok", .b true), ("uid", .s (uid.getD "")), ("role", .s r)]⟩,
           some (uid.getD "", r)⟩
        else ⟨⟨400, [("error", .s "invalid role")]⟩, none⟩
    | none => ⟨⟨400, [("error", .s "invalid role")]⟩, none⟩

/-- The `POST /roles/set` route of `src/unnamed/part_000` line 196:
`requireAuth`, the admin-or-moderator gate, then the admin-only handler. -/
def rolesSetRoute (uid : Option String) (doc : RoleDoc)
    (bodyUid : Option String) (bodyRole : Option String) : RolesSetOutcome :=
  match requireAdminOrModeratorByRolesDoc uid doc with
  | .denied s e => ⟨⟨s, [("error", .s e)]⟩, none⟩
  | .allowed role => rolesSetHandler role bodyUid bodyRole

/-! ## Theorems for the claims -/

/-- C1: for the parameter mapping `{folder: "x", timestamp: 1000}` and secret
`"abc"`, the Signer produces the string-to-sign `"folder=x&timestamp=1000"`
and returns the lowercase hex SHA-1 digest of `"folder=x&timestamp=1000abc"`
(keys sorted ascending, pairs rendered `key=value` joined by `&`, secret
appended with no separator, 160-bit digest hex-encoded lowercase). -/
theorem sign_example_folder_x_timestamp_1000 :
    stringToSign [("folder", "x"), ("timestamp", "1000")] = "folder=x&timestamp=1000" ∧
    sign [("folder", "x"), ("timestamp", "1000")] "abc" =
      sha1Hex "folder=x&timestamp=1000abc" ∧
    sign [("folder", "x"), ("timestamp", "1000")] "abc" =
      "8f26f01bc9f73309897e8dda5076f85507bf03ea" := by
  refine ⟨by decide, by decide, by decide⟩

/-- C10: parameter values are concatenated into the string-to-sign verbatim,
with no escaping of `=` or `&`, so the distinct parameter mappings
`{folder: "x&public_id=y", timestamp: 1000}` and
`{folder: "x", public_id: "y", timestamp: 1000}` produce the identical
string-to-sign `"folder=x&public_id=y&timestamp=1000"` and hence the
identical signature for every secret. -/
theorem value_injection_collides :
    signParams "x&public_id=y" 1000 none ≠ signParams "x" 1000 (some "y") ∧
    stringToSign (signParams "x&public_id=y" 1000 none) = "folder=x&public_id=y&timestamp=1000" ∧
    stringToSign (signParams "x" 1000 (some "y")) = "folder=x&public_id=y&timestamp=1000" ∧
    ∀ secret : String,
      sign (signParams "x&public_id=y" 1000 none) secret =
        sign (signParams "x" 1000 (some "y")) secret := by
  refine ⟨by decide, by decide, by decide, fun secret => ?_⟩
  show sha1Hex (stringToSign (signParams "x&public_id=y" 1000 none) ++ secret) = _
  rw [show stringToSign (signParams "x&public_id=y" 1000 none) =
        stringToSign (signParams "x" 1000 (some "y")) by decide]
  rfl

/-- C3: a `POST /sign` body with `folder` missing or empty makes the handler
answer 400 `folder required` in both variants (for the `index.js` variant,
provided the configuration check it runs first passes), the result is
independent of the signing secret (the Signer is never invoked), and no
signature-shaped success body is produced. -/
theorem sign_missing_folder_bad_request :
    ∀ (cn ak sec sec' : String) (fb : Bool) (now : Nat) (body : SignBody),
      body.folder = none ∨ body.folder = some "" →
      part000SignHandler cn ak sec now body = ⟨400, [("error", .s "folder required")]⟩ ∧
      (cn ≠ "" → ak ≠ "" → sec ≠ "" → sec' ≠ "" → fb = true →
        signHandler cn ak sec fb now body = ⟨400, [("error", .s "folder required")]⟩ ∧
        signHandler cn ak sec fb now body = signHandler cn ak sec' fb now body ∧
        "signature" ∉ (signHandler cn ak sec fb now body).keys) := by
  intro cn ak sec sec' fb now body hfolder
  have hf : jsFalsy body.folder = true := by
    rcases hfolder with h | h <;> simp [jsFalsy, h]
  constructor
  · simp [part000SignHandler, hf]
  · intro hcn hak hsec hsec' hfb
    have hr : signHandler cn ak sec fb now body = ⟨400, [("error", .s "folder required")]⟩ := by
      simp [signHandler, hf, hcn, hak, hsec, hfb]
    have hr' : signHandler cn ak sec' fb now body = ⟨400, [("error", .s "folder required")]⟩ := by
      simp [signHandler, hf, hcn, hak, hsec', hfb]
    refine ⟨hr, hr.trans hr'.symm, ?_⟩
    rw [hr]
    decide

/-- Witness for C3 at a concrete request with `folder` absent. -/
theorem sign_missing_folder_bad_request_witness :
    part000SignHandler "c" "k" "s" 0 ⟨none, none, none⟩ =
      ⟨400, [("error", .s "folder required")]⟩ ∧
    signHandler "c" "k" "s" true 0 ⟨none, none, none⟩ =
      ⟨400, [("error", .s "folder required")]⟩ := by
  have h := sign_missing_folder_bad_request "c" "k" "s" "t" true 0 ⟨none, none, none⟩
    (Or.inl rfl)
  exact ⟨h.1, (h.2 (by decide) (by decide) (by decide) (by decide) rfl).1⟩

/-- C5 counterexample: in the `part_000` variant a successful `POST /sign`
response carries seven keys — the claimed six plus the debug `stringToSign`
key — so the claim that the 200 body is exactly
`{cloudName, apiKey, timestamp, signature, folder, public_id}` fails there. -/
theorem part000_sign_response_has_seven_keys :
    (part000SignHandler "c" "k" "s" 1000 ⟨some "x", none, none⟩).status = 200 ∧
    (part000SignHandler "c" "k" "s" 1000 ⟨some "x", none, none⟩).keys =
      ["cloudName", "apiKey", "timestamp", "signature", "folder", "public_id",
       "stringToSign"] := by
  exact ⟨by decide, by decide⟩

/-- C5 (amended): a successful `POST /sign` response body is
`{cloudName, apiKey, timestamp, signature, folder, public_id}` in the
`index.js` variant, with the `part_000` variant appending the debug
`stringToSign` key; in both, when the caller omitted `public_id` the
response's `public_id` key is present with value null. -/
theorem sign_response_shape :
    ∀ (cn ak sec : String) (fb : Bool) (now : Nat) (folder : String)
      (pid : Option String) (ts : Option Nat),
      cn ≠ "" → ak ≠ "" → sec ≠ "" → fb = true → folder ≠ "" →
      ((signHandler cn ak sec fb now ⟨some folder, pid, ts⟩).status = 200 ∧
       (signHandler cn ak sec fb now ⟨some folder, pid, ts⟩).keys =
         ["cloudName", "apiKey", "timestamp", "signature", "folder", "public_id"]) ∧
      ((part000SignHandler cn ak sec now ⟨some folder, pid, ts⟩).status = 200 ∧
       (part000SignHandler cn ak sec now ⟨some folder, pid, ts⟩).keys =
         ["cloudName", "apiKey", "timestamp", "signature", "folder", "public_id",
          "stringToSign"]) ∧
      (pid = none →
        (signHandler cn ak sec fb now ⟨some folder, pid, ts⟩).body.lookup "public_id" =
          some JVal.null ∧
        (part000SignHandler cn ak sec now ⟨some folder, pid, ts⟩).body.lookup "public_id" =
          some JVal.null) := by
  intro cn ak sec fb now folder pid ts hcn hak hsec hfb hfolder
  have hf : jsFalsy (some folder) = false := by simp [jsFalsy, hfolder]
  have h1 : signHandler cn ak sec fb now ⟨some folder, pid, ts⟩ =
      ⟨200, [("cloudName", .s cn), ("apiKey", .s ak), ("timestamp", .n now),
             ("signature", .s (sign (signParams folder now pid) sec)),
             ("folder", .s folder),
             ("public_id", (pid.map JVal.s).getD JVal.null)]⟩ := by
    simp [signHandler, hf, hcn, hak, hsec, hfb]
  have h2 : part000SignHandler cn ak sec now ⟨some folder, pid, ts⟩ =
      ⟨200, [("cloudName", .s cn), ("apiKey", .s ak), ("timestamp", .n now),
             ("signature", .s (sign (signParams folder now pid) sec)),
             ("folder", .s folder),
             ("public_id", (pid.map JVal.s).getD JVal.null),
             ("stringToSign", .s (stringToSign (signParams folder now pid)))]⟩ := by
    simp [part000SignHandler, hf, hcn, hak, hsec]
  refine ⟨⟨by rw [h1], by rw [h1]; rfl⟩, ⟨by rw [h2], by rw [h2]; rfl⟩, ?_⟩
  rintro rfl
  rw [h1, h2]
  exact ⟨rfl, rfl⟩

/-- Witness for C5 at a concrete successful request omitting `public_id`. -/
theorem sign_response_shape_witness :
    (signHandler "c" "k" "s" true 1000 ⟨some "x", none, none⟩).keys =
      ["cloudName", "apiKey", "timestamp", "signature", "folder", "public_id"] ∧
    (signHandler "c" "k" "s" true 1000 ⟨some "x", none, none⟩).body.lookup "public_id" =
      some JVal.null := by
  have h := sign_response_shape "c" "k" "s" true 1000 "x" none none
    (by decide) (by decide) (by decide) rfl (by decide)
  exact ⟨h.1.2, (h.2.2 rfl).1⟩

/-- C6: the `POST /cloudinary/delete` string-to-sign of `part_000` is
exactly `public_id=<public_id>&timestamp=<ts>`: it coincides with the
canonical Signer rendering of the two-key mapping
`{public_id, timestamp}`, whose key set has no `folder` entry — unlike the
`/sign` call site, whose parameter set always contains `folder`. -/
theorem delete_string_to_sign_two_keys :
    ∀ (p : String) (ts : Nat),
      part000DeleteStringToSign p ts =
        stringToSign [("public_id", p), ("timestamp", toString ts)] ∧
      ([("public_id", p), ("timestamp", toString ts)].map Prod.fst =
        ["public_id", "timestamp"]) ∧
      "folder" ∉ [("public_id", p), ("timestamp", toString ts)].map Prod.fst ∧
      ∀ (folder : String) (now : Nat) (pid : Option String),
        "folder" ∈ (signParams folder now pid).map Prod.fst := by
  intro p ts
  refine ⟨?_, rfl, by simp, ?_⟩
  · show "public_id=" ++ p ++ "&timestamp=" ++ toString ts = _
    have hsort : sortKeys ["public_id", "timestamp"] = ["public_id", "timestamp"] := by decide
    simp only [stringToSign, List.map_cons, List.map_nil, hsort, List.lookup,
      String.intercalate, String.intercalate.go]
    rw [← String.toList_inj]
    simp [String.data_append]
  · intro folder now pid
    by_cases h : jsFalsy pid <;> simp [signParams, h]

/-- C7 counterexample: in the `part_000` variant a successful delete
responds 200 with body `{ok: true, cloudinary: <remote>}` — there is no
`public_id` key and no `result` key, so the claimed body shape
`{ok: true, public_id, result}` fails there. -/
theorem part000_delete_response_keys :
    (part000DeleteHandler "c" "k" "s" (some "p1") true 200 (.raw 0)) =
      ⟨200, [("ok", .b true), ("cloudinary", .raw 0)]⟩ ∧
    "public_id" ∉ (part000DeleteHandler "c" "k" "s" (some "p1") true 200 (.raw 0)).keys ∧
    "result" ∉ (part000DeleteHandler "c" "k" "s" (some "p1") true 200 (.raw 0)).keys := by
  exact ⟨by decide, by decide, by decide⟩

/-- C7 (amended): when the outbound destroy call succeeds, the `index.js`
library variant responds 200 `{ok: true, public_id, result}` with `result`
the remote outcome verbatim, and a failing call yields a distinct 500
upstream error; the `part_000` manual variant responds 200
`{ok: true, cloudinary: <remote verbatim>}` (no `public_id`/`result` keys),
and a non-2xx remote response yields a distinct 500 upstream error. -/
theorem delete_response_shapes :
    ∀ (cn ak sec : String) (fb : Bool) (pid : String) (r : JVal) (e : String) (st : Nat),
      cn ≠ "" → ak ≠ "" → sec ≠ "" → fb = true → pid ≠ "" →
      indexDeleteHandler cn ak sec fb (some pid) (.ok r) =
        ⟨200, [("ok", .b true), ("public_id", .s pid), ("result", r)]⟩ ∧
      indexDeleteHandler cn ak sec fb (some pid) (.error e) =
        ⟨500, [("error", .s "Cloudinary delete failed"), ("details", .s e)]⟩ ∧
      part000DeleteHandler cn ak sec (some pid) true st r =
        ⟨200, [("ok", .b true), ("cloudinary", r)]⟩ ∧
      part000DeleteHandler cn ak sec (some pid) false st r =
        ⟨500, [("error", .s "Cloudinary destroy failed"), ("status", .n st),
               ("body", r)]⟩ := by
  intro cn ak sec fb pid r e st hcn hak hsec hfb hpid
  have hp : jsFalsy (some pid) = false := by simp [jsFalsy, hpid]
  refine ⟨?_, ?_, ?_, ?_⟩ <;>
    simp [indexDeleteHandler, part000DeleteHandler, hp, hcn, hak, hsec, hfb]

/-- Witness for C7 (amended) at concrete inputs. -/
theorem delete_response_shapes_witness :
    indexDeleteHandler "c" "k" "s" true (some "p1") (.ok (.raw 7)) =
      ⟨200, [("ok", .b true), ("public_id", .s "p1"), ("result", .raw 7)]⟩ ∧
    part000DeleteHandler "c" "k" "s" (some "p1") false 404 (.raw 7) =
      ⟨500, [("error", .s "Cloudinary destroy failed"), ("status", .n 404),
             ("body", .raw 7)]⟩ := by
  have h := delete_response_shapes "c" "k" "s" true "p1" (.raw 7) "err" 404
    (by decide) (by decide) (by decide) rfl (by decide)
  exact ⟨h.1, h.2.2.2⟩

/-- C8: on `POST /roles/set`, a caller whose resolved role is `"moderator"`
(which passes the general admin-or-moderator gate) is rejected with 403
`Admins only` and no role record is written; a write happens exactly when
the resolved role is `"admin"`, the body `uid` is truthy and the body
`role` lies in the enum `{admin, moderator, user}`. -/
theorem roles_set_requires_admin_exactly :
    ∀ (u : String) (doc : RoleDoc) (bu br : Option String),
      (part000ResolveRole doc = "moderator" →
        rolesSetRoute (some u) doc bu br =
          ⟨⟨403, [("error", .s "Admins only")]⟩, none⟩) ∧
      ((rolesSetRoute (some u) doc bu br).write.isSome = true ↔
        part000ResolveRole doc = "admin" ∧ jsFalsy bu = false ∧
          ∃ r, br = some r ∧ (r = "admin" ∨ r = "moderator" ∨ r = "user")) := by
  intro u doc bu br
  constructor
  · intro hmod
    simp [rolesSetRoute, requireAdminOrModeratorByRolesDoc, hmod, rolesSetHandler]
  · by_cases hadmin : part000ResolveRole doc = "admin"
    · have hroute : rolesSetRoute (some u) doc bu br = rolesSetHandler "admin" bu br := by
        simp [rolesSetRoute, requireAdminOrModeratorByRolesDoc, hadmin]
      rw [hroute]
      unfold rolesSetHandler
      by_cases hbu : jsFalsy bu
      · simp [hbu, hadmin]
      · rcases br with _ | r
        · simp [hbu, hadmin]
        · by_cases hr : r = "admin" ∨ r = "moderator" ∨ r = "user" <;>
            simp [hbu, hadmin, hr]
    · have hnone : (rolesSetRoute (some u) doc bu br).write = none := by
        by_cases hmod : part000ResolveRole doc = "moderator"
        · simp [rolesSetRoute, requireAdminOrModeratorByRolesDoc, hmod, rolesSetHandler]
        · simp [rolesSetRoute, requireAdminOrModeratorByRolesDoc, hadmin, hmod]
      simp [hnone, hadmin]

/-- Witness for C8: a moderator-role caller is rejected on `/roles/set`
with `Admins only` and nothing is written. -/
theorem roles_set_requires_admin_exactly_witness :
    rolesSetRoute (some "u1") (some (some "moderator")) (some "u2") (some "user") =
      ⟨⟨403, [("error", .s "Admins only")]⟩, none⟩ := by
  exact (roles_set_requires_admin_exactly "u1" (some (some "moderator")) (some "u2")
    (some "user")).1 (by decide)

/-- C9 counterexample: in `src/index.js` the `/sign` and `/cloudinary/delete`
routes are gated by the admin-only `requireAdmin`, so a caller with a valid
credential and role `"moderator"` does not pass the gate: both endpoints
answer 403 `Not admin`, contradicting the claim that a moderator passes. -/
theorem index_gate_rejects_moderator :
    requireAdmin (some "u1") (some (some "moderator")) = .denied 403 "Not admin" ∧
    indexSignRoute "c" "k" "s" true (some "u1") (some (some "moderator")) 1000
        ⟨some "x", none, none⟩ = ⟨403, [("error", .s "Not admin")]⟩ ∧
    indexDeleteRoute "c" "k" "s" true (some "u1") (some (some "moderator"))
        (some "p1") (.ok (.raw 0)) = ⟨403, [("error", .s "Not admin")]⟩ := by
  exact ⟨by decide, by decide, by decide⟩

/-- C9 (amended): with a valid credential, the `part_000` variant gates
`/sign` and `/cloudinary/delete` by admin-or-moderator, resolving an absent
role record to `""` (not `"user"`) and denying it with 403, and denying
role `"user"` with 403; the `index.js` variant gates both endpoints
admin-only, defaulting an absent record to `"user"` and denying both
`"moderator"` and `"user"` with 403. On every denial the route returns the
gate's error, independent of the signing secret: no signature is computed
and no delete is performed. -/
theorem role_gate_characterization :
    ∀ (u : String) (doc : RoleDoc),
      (requireAdminOrModeratorByRolesDoc (some u) doc =
        if part000ResolveRole doc = "admin" ∨ part000ResolveRole doc = "moderator"
        then .allowed (part000ResolveRole doc)
        else .denied 403 "Forbidden: admin/moderator only") ∧
      part000ResolveRole none = "" ∧
      requireAdminOrModeratorByRolesDoc (some u) none =
        .denied 403 "Forbidden: admin/moderator only" ∧
      requireAdminOrModeratorByRolesDoc (some u) (some (some "user")) =
        .denied 403 "Forbidden: admin/moderator only" ∧
      requireAdminOrModeratorByRolesDoc (some u) (some (some "moderator")) =
        .allowed "moderator" ∧
      resolveRole none = "user" ∧
      (requireAdmin (some u) doc =
        if resolveRole doc = "admin" then .allowed "admin"
        else .denied 403 "Not admin") ∧
      requireAdmin (some u) (some (some "user")) = .denied 403 "Not admin" ∧
      (∀ (cn ak sec sec' : String) (now : Nat) (body : SignBody),
        part000SignRoute cn ak sec (some u) (some (some "user")) now body =
          ⟨403, [("error", .s "Forbidden: admin/moderator only")]⟩ ∧
        part000SignRoute cn ak sec (some u) (some (some "user")) now body =
          part000SignRoute cn ak sec' (some u) (some (some "user")) now body) ∧
      (∀ (cn ak sec : String) (pid : Option String) (rk : Bool) (rs : Nat) (rb : JVal),
        part000DeleteRoute cn ak sec (some u) (some (some "user")) pid rk rs rb =
          ⟨403, [("error", .s "Forbidden: admin/moderator only")]⟩) ∧
      (∀ (cn ak sec : String) (fb : Bool) (now : Nat) (body : SignBody),
        indexSignRoute cn ak sec fb (some u) (some (some "user")) now body =
          ⟨403, [("error", .s "Not admin")]⟩) ∧
      (∀ (cn ak sec : String) (fb : Bool) (pid : Option String) (d : Except String JVal),
        indexDeleteRoute cn ak sec fb (some u) (some (some "user")) pid d =
          ⟨403, [("error", .s "Not admin")]⟩) := by
  intro u doc
  have huser : part000ResolveRole (some (some "user")) = "user" := by decide
  have hg1 : requireAdminOrModeratorByRolesDoc (some u) (some (some "user")) =
      .denied 403 "Forbidden: admin/moderator only" := by
    simp [requireAdminOrModeratorByRolesDoc, huser]
  have hg2 : requireAdmin (some u) (some (some "user")) = .denied 403 "Not admin" := by
    have : resolveRole (some (some "user")) = "user" := by decide
    simp [requireAdmin, this]
  refine ⟨?_, by decide, ?_, hg1, ?_, by decide, ?_, hg2, ?_, ?_, ?_, ?_⟩
  · by_cases h : part000ResolveRole doc = "admin" ∨ part000ResolveRole doc = "moderator"
    · rcases h with h | h <;> simp [requireAdminOrModeratorByRolesDoc, h]
    · have h' := not_or.mp h
      simp [requireAdminOrModeratorByRolesDoc, h, h'.1, h'.2]
  · have : part000ResolveRole none = "" := by decide
    simp [requireAdminOrModeratorByRolesDoc, this]
  · have : part000ResolveRole (some (some "moderator")) = "moderator" := by decide
    simp [requireAdminOrModeratorByRolesDoc, this]
  · by_cases h : resolveRole doc = "admin" <;> simp [requireAdmin, h]
  · intro cn ak sec sec' now body
    exact ⟨by simp [part000SignRoute, hg1], by simp [part000SignRoute, hg1]⟩
  · intro cn ak sec pid rk rs rb
    simp [part000DeleteRoute, hg1]
  · intro cn ak sec fb now body
    simp [indexSignRoute, hg2]
  · intro cn ak sec fb pid d
    simp [indexDeleteRoute, hg2]

/-! ## Order properties of the key comparison -/

/-- A character is determined by its code point. -/
theorem char_eq_of_toNat_eq {a b : Char} (h : a.toNat = b.toNat) : a = b :=
  Char.eq_of_val_eq (UInt32.eq_of_toBitVec_eq (BitVec.toNat_injective h))

/-- The key comparison is total. -/
theorem charListLe_total : ∀ as bs : List Char,
    charListLe as bs = true ∨ charListLe bs as = true
  | [], _ => Or.inl rfl
  | _ :: _, [] => Or.inr rfl
  | a :: as, b :: bs => by
      by_cases h1 : a.toNat < b.toNat
      · exact Or.inl (by simp [charListLe, h1])
      · by_cases h2 : b.toNat < a.toNat
        · exact Or.inr (by simp [charListLe, h2])
        · rcases charListLe_total as bs with h | h
          · exact Or.inl (by simp [charListLe, h1, h2, h])
          · exact Or.inr (by simp [charListLe, h1, h2, h])

/-- The key comparison is transitive. -/
theorem charListLe_trans : ∀ as bs cs : List Char,
    charListLe as bs = true → charListLe bs cs = true → charListLe as cs = true
  | [], _, _, _, _ => rfl
  | _ :: _, [], _, hab, _ => by simp [charListLe] at hab
  | _ :: _, _ :: _, [], _, hbc => by simp [charListLe] at hbc
  | a :: as, b :: bs, c :: cs, hab, hbc => by
      simp only [charListLe] at hab hbc ⊢
      split at hab
      next h1 =>
        split at hbc
        next h2 => simp [Nat.lt_trans h1 h2]
        next h2 =>
          split at hbc
          next => simp at hbc
          next h3 => have h4 : a.toNat < c.toNat := by omega
                     simp [h4]
      next h1 =>
        split at hab
        next => simp at hab
        next h2 =>
          split at hbc
          next h3 => have h4 : a.toNat < c.toNat := by omega
                     simp [h4]
          next h3 =>
            split at hbc
            next => simp at hbc
            next h4 =>
              have h5 : ¬ a.toNat < c.toNat := by omega
              have h6 : ¬ c.toNat < a.toNat := by omega
              simp only [h5, h6, if_false]
              exact charListLe_trans as bs cs hab hbc

/-- The key comparison is antisymmetric. -/
theorem charListLe_antisymm : ∀ as bs : List Char,
    charListLe as bs = true → charListLe bs as = true → as = bs
  | [], [], _, _ => rfl
  | [], _ :: _, _, hba => by simp [charListLe] at hba
  | _ :: _, [], hab, _ => by simp [charListLe] at hab
  | a :: as, b :: bs, hab, hba => by
      simp only [charListLe] at hab hba
      split at hab
      next h1 =>
        rw [if_neg (by omega), if_pos h1] at hba
        simp at hba
      next h1 =>
        split at hab
        next => simp at hab
        next h2 =>
          rw [if_neg (by omega), if_neg (by omega)] at hba
          have hc : a = b := char_eq_of_toNat_eq (by omega)
          rw [hc, charListLe_antisymm as bs hab hba]

instance : IsTotal String (fun a b => jsLe a b = true) :=
  ⟨fun a b => charListLe_total a.data b.data⟩

instance : IsTrans String (fun a b => jsLe a b = true) :=
  ⟨fun a b c => charListLe_trans a.data b.data c.data⟩

instance : IsAntisymm String (fun a b => jsLe a b = true) :=
  ⟨fun a b hab hba => congrArg String.mk (charListLe_antisymm a.data b.data hab hba)⟩

/-- Sorting is invariant under permutation of the keys. -/
theorem sortKeys_eq_of_perm {l₁ l₂ : List String} (h : l₁.Perm l₂) :
    sortKeys l₁ = sortKeys l₂ :=
  List.eq_of_perm_of_sorted
    ((List.perm_insertionSort _ l₁).trans (h.trans (List.perm_insertionSort _ l₂).symm))
    (List.sorted_insertionSort _ l₁) (List.sorted_insertionSort _ l₂)

/-- Association-list lookup is invariant under permutation when the keys
are duplicate-free. -/
theorem lookup_eq_of_perm : ∀ {l₁ l₂ : List (String × String)}, l₁.Perm l₂ →
    (l₁.map Prod.fst).Nodup → ∀ k, List.lookup k l₁ = List.lookup k l₂ := by
  intro l₁ l₂ h
  induction h with
  | nil => exact fun _ _ => rfl
  | cons x h ih =>
      intro nd k
      rcases x with ⟨k₁, v₁⟩
      simp only [List.map_cons] at nd
      have nd' := (List.nodup_cons.mp nd).2
      cases hk : k == k₁ <;> simp [List.lookup, hk, ih nd' k]
  | swap x y l =>
      intro nd k
      rcases x with ⟨kx, vx⟩
      rcases y with ⟨ky, vy⟩
      simp only [List.map_cons] at nd
      have hne : ky ≠ kx := by
        intro he
        exact (List.nodup_cons.mp nd).1 (by simp [he])
      cases hk : k == ky <;> cases hk' : k == kx <;>
        simp [List.lookup, hk, hk']
      exact absurd ((eq_of_beq hk).symm.trans (eq_of_beq hk')) hne
  | trans h₁ h₂ ih₁ ih₂ =>
      intro nd k
      exact (ih₁ nd k).trans (ih₂ (((h₁.map Prod.fst).nodup_iff).mp nd) k)

/-- C2: the Signer is deterministic and independent of the insertion order
of the parameter mapping: two association lists with the same key-value set
(a permutation, keys duplicate-free) and the same secret sign identically. -/
theorem sign_key_order_independent :
    ∀ (P P' : List (String × String)) (S : String),
      P.Perm P' → (P.map Prod.fst).Nodup → sign P S = sign P' S := by
  intro P P' S hperm hnd
  have hkeys : sortKeys (P.map Prod.fst) = sortKeys (P'.map Prod.fst) :=
    sortKeys_eq_of_perm (hperm.map Prod.fst)
  have hlk : ∀ k, List.lookup k P = List.lookup k P' := lookup_eq_of_perm hperm hnd
  unfold sign stringToSign
  rw [hkeys]
  simp only [hlk]

/-- Witness for C2: `sign({b:2,a:1}, S) = sign({a:1,b:2}, S)` at `S = "S"`. -/
theorem sign_key_order_independent_witness :
    sign [("b", "2"), ("a", "1")] "S" = sign [("a", "1"), ("b", "2")] "S" :=
  sign_key_order_independent [("b", "2"), ("a", "1")] [("a", "1"), ("b", "2")] "S"
    (by decide) (by decide)

/-- C4 counterexample: a caller-supplied `public_id` equal to the empty
string is skipped by the JS truthiness check `if (public_id)`, so the
signed parameter mapping at that input is `{folder, timestamp}` only — not
`{folder, timestamp, public_id}` even though the caller supplied
`public_id`. -/
theorem supplied_empty_public_id_not_signed :
    signParams "x" 1000 (some "") = [("folder", "x"), ("timestamp", "1000")] ∧
    "public_id" ∉ (signParams "x" 1000 (some "")).map Prod.fst ∧
    (signHandler "c" "k" "s" true 1000 ⟨some "x", some "", none⟩).body.lookup "signature" =
      some (.s (sign [("folder", "x"), ("timestamp", "1000")] "s")) := by
  exact ⟨by decide, by decide, by decide⟩

/-- C4 (amended): for every successful `POST /sign`, the signed parameter
mapping is exactly `{folder, timestamp}`, plus `public_id` when the caller
supplied it as a nonempty string; the timestamp signed is the
server-generated current unix time (`now`), and a caller-supplied
`timestamp` field of the request body never influences the response, hence
never the signature. -/
theorem sign_params_exact :
    ∀ (cn ak sec : String) (fb : Bool) (now : Nat) (folder : String)
      (pid : Option String) (t t' : Option Nat),
      folder ≠ "" →
      (signHandler cn ak sec fb now ⟨some folder, pid, t⟩ =
        signHandler cn ak sec fb now ⟨some folder, pid, t'⟩) ∧
      (part000SignHandler cn ak sec now ⟨some folder, pid, t⟩ =
        part000SignHandler cn ak sec now ⟨some folder, pid, t'⟩) ∧
      (signParams folder now pid =
        [("folder", folder), ("timestamp", toString now)] ++
          (if jsFalsy pid then [] else [("public_id", pid.getD "")])) ∧
      (cn ≠ "" → ak ≠ "" → sec ≠ "" → fb = true →
        (signHandler cn ak sec fb now ⟨some folder, pid, t⟩).body.lookup "signature" =
          some (.s (sign (signParams folder now pid) sec)) ∧
        (signHandler cn ak sec fb now ⟨some folder, pid, t⟩).body.lookup "timestamp" =
          some (.n now)) := by
  intro cn ak sec fb now folder pid t t' hfolder
  refine ⟨rfl, rfl, ?_, ?_⟩
  · unfold signParams
    split <;> simp
  · intro hcn hak hsec hfb
    have hf : jsFalsy (some folder) = false := by simp [jsFalsy, hfolder]
    have h1 : signHandler cn ak sec fb now ⟨some folder, pid, t⟩ =
        ⟨200, [("cloudName", .s cn), ("apiKey", .s ak), ("timestamp", .n now),
               ("signature", .s (sign (signParams folder now pid) sec)),
               ("folder", .s folder),
               ("public_id", (pid.map JVal.s).getD JVal.null)]⟩ := by
      simp [signHandler, hf, hcn, hak, hsec, hfb]
    rw [h1]
    exact ⟨rfl, rfl⟩

/-- Witness for C4 (amended) at a concrete request with `public_id`
supplied and two different caller timestamps. -/
theorem sign_params_exact_witness :
    signParams "x" 1000 (some "y") =
      [("folder", "x"), ("timestamp", "1000"), ("public_id", "y")] ∧
    signHandler "c" "k" "s" true 1000 ⟨some "x", some "y", some 1⟩ =
      signHandler "c" "k" "s" true 1000 ⟨some "x", some "y", some 2⟩ := by
  have h := sign_params_exact "c" "k" "s" true 1000 "x" (some "y") (some 1) (some 2)
    (by decide)
  refine ⟨?_, h.1⟩
  rw [h.2.2.1]
  decide

end CloudinarySigner
